import Mathlib

/-!
Shallow embedding of `app/main.py` of PiperPhonemizeAPI: a FastAPI service
exposing `/phonemize`, `/ipa-to-text`, `/languages`, `/health` and
`/debug/config`.  Python strings are modelled as Lean `String`
(lists of characters); the external phonemization engine and the Azure
OpenAI chat-completion endpoint are modelled as oracles passed to the
handlers; environment variables are modelled as strings, an unset variable
as `""` (`os.getenv` yields `None` for an unset variable and the code only
ever tests truthiness or defaults to `""`, so `None` and `""` are
observationally identical everywhere they are used).
-/

namespace PiperPhonemizeAPI

/-- Characters treated as whitespace by Python `str.strip()` (ASCII range;
non-ASCII Unicode whitespace does not occur in any string this model is
evaluated on). -/
def pyIsSpace (c : Char) : Bool :=
  c = ' ' || c = '\t' || c = '\n' || c = '\r' || c = '\x0b' || c = '\x0c'

/-- Remove the longest prefix of characters satisfying `p`. -/
def dropLeading (p : Char → Bool) (l : List Char) : List Char :=
  l.dropWhile p

/-- Remove the longest suffix of characters satisfying `p`. -/
def dropTrailing (p : Char → Bool) (l : List Char) : List Char :=
  (l.reverse.dropWhile p).reverse

/-- Python `str.strip(chars)`: remove leading and trailing characters
satisfying `p`. -/
def stripWith (p : Char → Bool) (l : List Char) : List Char :=
  dropTrailing p (dropLeading p l)

/-- Python `s.strip()`. -/
def pyStrip (s : String) : String :=
  String.mk (stripWith pyIsSpace s.toList)

/-- Python `s.strip('/')`. -/
def stripSlashes (s : String) : String :=
  String.mk (stripWith (fun c => c = '/') s.toList)

/-- The `SUPPORTED_LANGUAGES` dict of `app/main.py`, in insertion order
(Python dicts preserve it). -/
def SUPPORTED_LANGUAGES : List (String × String) :=
  [("ar", "Arabic"),
   ("cs", "Czech"),
   ("cs-cz", "Czech (CZ)"),
   ("de", "German"),
   ("de-de", "German (DE)"),
   ("en", "English"),
   ("en-us", "English (US)"),
   ("es", "Spanish"),
   ("es-es", "Spanish (ES)"),
   ("fa", "Persian"),
   ("fr", "French"),
   ("fr-fr", "French (FR)"),
   ("it", "Italian"),
   ("it-it", "Italian (IT)"),
   ("lb", "Luxembourgish"),
   ("nl", "Dutch"),
   ("ru", "Russian"),
   ("ru-ru", "Russian (RU)"),
   ("sv", "Swedish"),
   ("sv-se", "Swedish (SE)"),
   ("sw", "Swahili")]

/-- The keys of `SUPPORTED_LANGUAGES`, in registration order. -/
def supportedCodes : List String :=
  SUPPORTED_LANGUAGES.map Prod.fst

/-- Python `v in SUPPORTED_LANGUAGES` (dict key membership). -/
def isSupported (c : String) : Bool :=
  supportedCodes.contains c

/-- One entry of the `/languages` response. -/
structure LanguageEntry where
  code : String
  name : String
  description : String
deriving DecidableEq

/-- The `get_languages` handler: one entry per registry item, in
registration order. -/
def get_languages : List LanguageEntry :=
  SUPPORTED_LANGUAGES.map fun cn =>
    { code := cn.1, name := cn.2, description := "Language code: " ++ cn.1 }

/-- The `text` validator of `PhonemeRequest`: reject when the trimmed text
is empty, otherwise keep the trimmed value. -/
def text_not_empty (v : String) : Except String String :=
  if pyStrip v = "" then Except.error "Text cannot be empty"
  else Except.ok (pyStrip v)

/-- The message of the `language` validator for an unsupported code. -/
def languageErrorMsg (v : String) : String :=
  "Language \"" ++ v ++ "\" not supported. Available languages: " ++
    String.intercalate ", " supportedCodes

/-- The `language` validator of `PhonemeRequest`: reject codes outside the
registry with a message enumerating all supported codes. -/
def language_must_be_supported (v : String) : Except String String :=
  if isSupported v then Except.ok v
  else Except.error (languageErrorMsg v)

/-- A pydantic field validation error: offending field and message. -/
structure ValidationError where
  loc : String
  msg : String
deriving DecidableEq

/-- A validated `PhonemeRequest`. -/
structure PhonemeRequest where
  text : String
  language : String
deriving DecidableEq

/-- Pydantic validation of `PhonemeRequest`: both field validators run,
every failure is reported with its field. -/
def validatePhonemeRequest (text language : String) :
    Except (List ValidationError) PhonemeRequest :=
  match text_not_empty text, language_must_be_supported language with
  | Except.ok t, Except.ok l => Except.ok { text := t, language := l }
  | te, le =>
    Except.error
      ((match te with
        | Except.error m => [ValidationError.mk "text" m]
        | Except.ok _ => []) ++
       (match le with
        | Except.error m => [ValidationError.mk "language" m]
        | Except.ok _ => []))

/-- The body of a `PhonemeResponse`. -/
structure PhonemeResponse where
  ipa : String
  sampa : String
  espeak_ascii : String
  note : String
deriving DecidableEq

/-- Default `note` of `PhonemeResponse`. -/
def defaultNote : String :=
  "Format conversion between IPA and SAMPA is pending implementation"

/-- Outcome of a `POST /phonemize` request. -/
inductive PhonemizeOutcome
  | validationError (errors : List ValidationError)
  | engineError (detail : String)
  | success (resp : PhonemeResponse)
deriving DecidableEq

/-- Modelled from the spec: FastAPI surfaces pydantic request-validation
failures as HTTP 422, a handler `HTTPException` with its own status code,
and a normal return as 200 ("500 on engine failure; 422 on validation
failure"). -/
def phonemizeStatus : PhonemizeOutcome → Nat
  | PhonemizeOutcome.validationError _ => 422
  | PhonemizeOutcome.engineError _ => 500
  | PhonemizeOutcome.success _ => 200

/-- The `phonemize_text` handler.  `engine` is the external
`phonemize_espeak` capability, an oracle from `(text, language)` to a
sequence of phoneme groups or a failure message.  The second component
records every invocation of the engine, in order. -/
def phonemize_text
    (engine : String → String → Except String (List (List String)))
    (text language : String) :
    PhonemizeOutcome × List (String × String) :=
  match validatePhonemeRequest text language with
  | Except.error es => (PhonemizeOutcome.validationError es, [])
  | Except.ok req =>
    match engine req.text req.language with
    | Except.error m =>
      (PhonemizeOutcome.engineError ("Error during phonemization: " ++ m),
       [(req.text, req.language)])
    | Except.ok phonemes =>
      let espeak := String.intercalate " " (phonemes.map String.join)
      (PhonemizeOutcome.success
        { ipa := espeak, sampa := espeak, espeak_ascii := espeak,
          note := defaultNote },
       [(req.text, req.language)])

/-- The `ipa` validator of `IPAToTextRequest`:
`cleaned = v.strip().strip('/')`, rejected when empty. -/
def clean_ipa (v : String) : Except String String :=
  if stripSlashes (pyStrip v) = "" then Except.error "IPA text cannot be empty"
  else Except.ok (stripSlashes (pyStrip v))

/-- The `ipa` normalization as the claim words it: remove one leading and
one trailing `/` only when both are present, then trim whitespace,
rejecting an empty result.  Kept separate from `clean_ipa` (the code's
behaviour) so the two can be compared. -/
def clean_ipa_claimed (v : String) : Except String String :=
  if 2 ≤ v.toList.length ∧ v.toList.head? = some '/' ∧
      v.toList.getLast? = some '/' then
    if pyStrip (String.mk (v.toList.drop 1).dropLast) = "" then
      Except.error "IPA text cannot be empty"
    else Except.ok (pyStrip (String.mk (v.toList.drop 1).dropLast))
  else
    if pyStrip v = "" then Except.error "IPA text cannot be empty"
    else Except.ok (pyStrip v)

/-- One message of the chat prompt. -/
structure ChatMessage where
  role : String
  content : String
deriving DecidableEq

/-- The system instruction of the reverse-lookup prompt. -/
def systemPrompt : String :=
  "You are a helpful assistant that converts IPA symbols " ++
  "into English words. Output only the spelled-out English " ++
  "word(s), no extra commentary. If multiple words are " ++
  "possible, pick the most common."

/-- The request sent to `client.chat.completions.create`; the sampling
temperature is an exact rational (the Python literal `0.0`). -/
structure ChatRequest where
  model : String
  messages : List ChatMessage
  temperature : ℚ
  max_tokens : Nat
deriving DecidableEq

/-- The chat-completion request `ipa_to_text` builds for a cleaned `ipa`. -/
def buildChatRequest (engineName ipa : String) : ChatRequest :=
  { model := engineName
  , messages :=
      [{ role := "system", content := systemPrompt },
       { role := "user", content := "IPA: " ++ ipa }]
  , temperature := 0
  , max_tokens := 50 }

/-- First choice returned by the completion service. -/
structure Choice where
  content : String
  finish_reason : String
deriving DecidableEq

/-- Behaviour of the external completion call on a request: a first choice,
an `openai.APIError`, or any other exception. -/
inductive CallOutcome
  | success (choice : Choice)
  | apiError (msg : String)
  | otherError (msg : String)
deriving DecidableEq

/-- The three environment variables consumed by the service; an unset
variable is modelled as `""` (see the module docstring). -/
structure Config where
  endpoint : String
  apiKey : String
  engine : String
deriving DecidableEq

/-- Outcome of a `POST /ipa-to-text` request: a 200 `IPAToTextResponse`
(whose `confidence` is the boolean `finish_reason == "stop"` the handler
passes to the model) or an `HTTPException` with status and detail. -/
inductive IpaResult
  | response (text : String) (confidence : Bool)
  | httpError (status : Nat) (detail : String)
deriving DecidableEq

/-- Modelled from the spec and starlette: `str(HTTPException(s, d))`
renders as `"s: d"`. -/
def httpExceptionStr (status : Nat) (detail : String) : String :=
  toString status ++ ": " ++ detail

/-- Detail of the 503 raised when the upstream is not configured. -/
def configMissingDetail : String :=
  "Azure OpenAI not configured. Please set AZURE_OPENAI_ENDPOINT, " ++
  "AZURE_OPENAI_API_KEY, and AZURE_OPENAI_ENGINE environment variables."

/-- The `ipa_to_text` handler on an already-validated `ipa`.  `call` is the
external chat-completion capability; the second component records every
outbound call, in order.  The handler body sits in a `try` whose
`except Exception` catches every exception — including the handler's own
`HTTPException`s — and re-raises `HTTPException(500, "Error converting IPA
to text: " + str(e))`, so the explicit 503 and the inner 500s are all
re-wrapped into a 500. -/
def ipa_to_text (cfg : Config) (ipa : String)
    (call : ChatRequest → CallOutcome) : IpaResult × List ChatRequest :=
  if cfg.endpoint = "" || cfg.apiKey = "" || cfg.engine = "" then
    (IpaResult.httpError 500
      ("Error converting IPA to text: " ++
        httpExceptionStr 503 configMissingDetail), [])
  else
    let req := buildChatRequest cfg.engine ipa
    match call req with
    | CallOutcome.success choice =>
      (IpaResult.response (pyStrip choice.content)
        (choice.finish_reason == "stop"), [req])
    | CallOutcome.apiError m =>
      (IpaResult.httpError 500
        ("Error converting IPA to text: " ++
          httpExceptionStr 500 ("Azure OpenAI API error: " ++ m)), [req])
    | CallOutcome.otherError m =>
      (IpaResult.httpError 500
        ("Error converting IPA to text: " ++
          httpExceptionStr 500 ("Error during API call: " ++ m)), [req])

/-- Python `s.replace(old, new)` on character lists: replace every
non-overlapping occurrence of `old`, left to right; with `old = []`, `new`
is inserted before every character and at the end. -/
def pyReplaceList (old new : List Char) : List Char → List Char
  | [] => if old = [] then new else []
  | c :: rest =>
    if old = [] then new ++ c :: pyReplaceList old new rest
    else if old.isPrefixOf (c :: rest) then
      -- continue after the match: with `old ≠ []` this drop of
      -- `old.length - 1` from `rest` is `(c :: rest).drop old.length`
      new ++ pyReplaceList old new (List.drop (old.length - 1) rest)
    else c :: pyReplaceList old new rest
termination_by s => s.length
decreasing_by
  all_goals simp [List.length_drop]
  all_goals omega

/-- Python `s.replace(old, new)`. -/
def pyReplace (s old new : String) : String :=
  String.mk (pyReplaceList old.toList new.toList s.toList)

/-- The `/debug/config` response body. -/
structure DebugConfig where
  endpoint_set : Bool
  api_key_set : Bool
  engine_set : Bool
  endpoint : String
  engine : String
deriving DecidableEq

/-- The `debug_config` handler: booleans for each variable, the endpoint
with the API key replaced by `"REDACTED"`, and the engine name. -/
def debug_config (cfg : Config) : DebugConfig :=
  { endpoint_set := cfg.endpoint != ""
  , api_key_set := cfg.apiKey != ""
  , engine_set := cfg.engine != ""
  , endpoint := pyReplace cfg.endpoint cfg.apiKey "REDACTED"
  , engine := cfg.engine }

/-- The string produced by replacing the empty string inside `s`:
`"REDACTED"` before every character of `s` and once at the end. -/
def redactedInterleave (s : String) : String :=
  String.mk
    ("REDACTED".toList ++ s.toList.flatMap fun c => c :: "REDACTED".toList)

theorem dropWhile_eq_self_of_head (p : Char → Bool) (l : List Char)
    (h : ∀ c, l.head? = some c → p c = false) : l.dropWhile p = l := by
  cases l with
  | nil => rfl
  | cons a t =>
    have ha : p a = false := h a rfl
    simp [List.dropWhile_cons, ha]

theorem head?_dropWhile_not (p : Char → Bool) (l : List Char) :
    ∀ c, (l.dropWhile p).head? = some c → p c = false := by
  induction l with
  | nil => intro c hc; simp [List.dropWhile] at hc
  | cons a t ih =>
    intro c hc
    by_cases ha : p a = true
    · rw [List.dropWhile_cons, if_pos ha] at hc
      exact ih c hc
    · rw [List.dropWhile_cons, if_neg ha] at hc
      simp at hc
      rw [← hc]
      exact Bool.eq_false_iff.mpr ha

theorem dropTrailing_eq_self_of_getLast (p : Char → Bool) (l : List Char)
    (h : ∀ c, l.getLast? = some c → p c = false) : dropTrailing p l = l := by
  unfold dropTrailing
  rw [dropWhile_eq_self_of_head p l.reverse (by
    intro c hc
    exact h c (by rwa [List.head?_reverse] at hc))]
  exact List.reverse_reverse l

theorem getLast?_dropTrailing_not (p : Char → Bool) (l : List Char) :
    ∀ c, (dropTrailing p l).getLast? = some c → p c = false := by
  intro c hc
  unfold dropTrailing at hc
  rw [List.getLast?_reverse] at hc
  exact head?_dropWhile_not p l.reverse c hc

/-- `dropTrailing` only removes characters from the end, so the result is a
prefix of the original list. -/
theorem dropTrailing_append (p : Char → Bool) (l : List Char) :
    dropTrailing p l ++ (l.reverse.takeWhile p).reverse = l := by
  unfold dropTrailing
  rw [← List.reverse_append, List.takeWhile_append_dropWhile, List.reverse_reverse]

theorem head?_dropTrailing (p : Char → Bool) (l : List Char) (c : Char)
    (hc : (dropTrailing p l).head? = some c) : l.head? = some c := by
  have h := dropTrailing_append p l
  cases hd : dropTrailing p l with
  | nil => rw [hd] at hc; simp at hc
  | cons a t =>
    rw [hd] at hc
    simp at hc
    rw [← h, hd, hc]
    rfl

theorem head?_stripWith_not (p : Char → Bool) (l : List Char) (c : Char)
    (hc : (stripWith p l).head? = some c) : p c = false := by
  unfold stripWith at hc
  exact head?_dropWhile_not p l c (head?_dropTrailing p (dropLeading p l) c hc)

theorem getLast?_stripWith_not (p : Char → Bool) (l : List Char) (c : Char)
    (hc : (stripWith p l).getLast? = some c) : p c = false :=
  getLast?_dropTrailing_not p (dropLeading p l) c hc

theorem stripWith_eq_self (p : Char → Bool) (l : List Char)
    (hh : ∀ c, l.head? = some c → p c = false)
    (hl : ∀ c, l.getLast? = some c → p c = false) : stripWith p l = l := by
  unfold stripWith dropLeading
  rw [dropWhile_eq_self_of_head p l hh]
  exact dropTrailing_eq_self_of_getLast p l hl

theorem text_not_empty_ok (v t : String) (h : text_not_empty v = Except.ok t) :
    t = pyStrip v := by
  unfold text_not_empty at h
  by_cases hv : pyStrip v = ""
  · rw [if_pos hv] at h; exact Except.noConfusion h
  · rw [if_neg hv] at h
    injection h with h2
    exact h2.symm

theorem pyReplaceList_nil_old (new : List Char) (l : List Char) :
    pyReplaceList [] new l = new ++ l.flatMap (fun c => c :: new) := by
  induction l with
  | nil => simp [pyReplaceList]
  | cons c rest ih => simp [pyReplaceList, ih]

/-- C9: the Language Registry contains exactly the 21 fixed codes ar, cs,
cs-cz, de, de-de, en, en-us, es, es-es, fa, fr, fr-fr, it, it-it, lb, nl,
ru, ru-ru, sv, sv-se, sw; every one of them is supported, and each appears
exactly once in the `/languages` listing, in registration order. -/
theorem languages_registry_exact :
    supportedCodes =
      ["ar", "cs", "cs-cz", "de", "de-de", "en", "en-us", "es", "es-es",
       "fa", "fr", "fr-fr", "it", "it-it", "lb", "nl", "ru", "ru-ru",
       "sv", "sv-se", "sw"] ∧
    supportedCodes.all isSupported = true ∧
    get_languages.map LanguageEntry.code = supportedCodes ∧
    supportedCodes.Nodup := by
  refine ⟨rfl, by decide, rfl, by decide⟩

/-- C3 counterexample: on the input `"/kæt"`, which has a leading slash but
no trailing one, `clean_ipa` strips the slash anyway, while the rule as
claimed (strip one of each only when both are present) would leave the
string unchanged. -/
theorem clean_ipa_claim_false :
    clean_ipa "/kæt" = Except.ok "kæt" ∧
    clean_ipa_claimed "/kæt" = Except.ok "/kæt" ∧
    ("kæt" : String) ≠ "/kæt" := by
  refine ⟨rfl, rfl, by decide⟩

/-- C3 amended: the ipa validator trims surrounding whitespace, then strips
all leading and trailing `/` characters — even when only one side has any —
and rejects the request when the resulting string is empty; an accepted
result therefore never starts or ends with a slash. -/
theorem clean_ipa_amended (v : String) :
    (stripSlashes (pyStrip v) = "" →
      clean_ipa v = Except.error "IPA text cannot be empty") ∧
    (stripSlashes (pyStrip v) ≠ "" →
      clean_ipa v = Except.ok (stripSlashes (pyStrip v))) ∧
    ∀ r, clean_ipa v = Except.ok r →
      r.toList.head? ≠ some '/' ∧ r.toList.getLast? ≠ some '/' := by
  refine ⟨fun h => ?_, fun h => ?_, fun r hr => ?_⟩
  · unfold clean_ipa
    rw [if_pos h]
  · unfold clean_ipa
    rw [if_neg h]
  · have hr2 : r = stripSlashes (pyStrip v) := by
      unfold clean_ipa at hr
      by_cases h : stripSlashes (pyStrip v) = ""
      · rw [if_pos h] at hr; exact Except.noConfusion hr
      · rw [if_neg h] at hr
        injection hr with h2
        exact h2.symm
    subst hr2
    constructor
    · intro hhead
      have := head?_stripWith_not (fun c => c = '/') (pyStrip v).toList '/' hhead
      simp at this
    · intro hlast
      have := getLast?_stripWith_not (fun c => c = '/') (pyStrip v).toList '/' hlast
      simp at this

/-- Witness for the amended C3 theorem at the concrete input `"/kæt"`. -/
theorem clean_ipa_amended_witness :
    clean_ipa "/kæt" = Except.ok (stripSlashes (pyStrip "/kæt")) ∧
    ("kæt" : String).toList.head? ≠ some '/' :=
  ⟨(clean_ipa_amended "/kæt").2.1 (by decide),
   ((clean_ipa_amended "/kæt").2.2 "kæt" rfl).1⟩

/-- C4 counterexample: the empty string has no leading or trailing slashes
and no surrounding whitespace, yet `clean_ipa` does not return it
unchanged — it rejects it. -/
theorem clean_ipa_idempotent_claim_false :
    ("" : String).toList.head? = none ∧
    ("" : String).toList.getLast? = none ∧
    clean_ipa "" = Except.error "IPA text cannot be empty" ∧
    clean_ipa "" ≠ Except.ok "" := by
  refine ⟨rfl, rfl, rfl, fun h => ?_⟩
  rw [show clean_ipa "" = Except.error "IPA text cannot be empty" from rfl] at h
  exact Except.noConfusion h

/-- C4 amended: `clean_ipa` is the identity (modulo the `Except.ok`
wrapper) on every non-empty string with no leading or trailing slash and no
surrounding whitespace, and the inputs `"/kæt"`-with-both-slashes, bare
`"kæt"` and whitespace-padded `" kæt "` all normalize to `"kæt"`. -/
theorem clean_ipa_idempotent (v : String) (hne : v ≠ "")
    (hh : ∀ c, v.toList.head? = some c → c ≠ '/' ∧ pyIsSpace c = false)
    (hl : ∀ c, v.toList.getLast? = some c → c ≠ '/' ∧ pyIsSpace c = false) :
    clean_ipa v = Except.ok v ∧
    clean_ipa "/kæt/" = Except.ok "kæt" ∧
    clean_ipa "kæt" = Except.ok "kæt" ∧
    clean_ipa " kæt " = Except.ok "kæt" := by
  refine ⟨?_, rfl, rfl, rfl⟩
  have hstrip : pyStrip v = v := by
    unfold pyStrip
    rw [stripWith_eq_self pyIsSpace v.toList
      (fun c hc => (hh c hc).2) (fun c hc => (hl c hc).2)]
    exact rfl
  have hslash : stripSlashes v = v := by
    unfold stripSlashes
    rw [stripWith_eq_self (fun c => c = '/') v.toList
      (fun c hc => decide_eq_false (hh c hc).1)
      (fun c hc => decide_eq_false (hl c hc).1)]
    exact rfl
  unfold clean_ipa
  rw [hstrip, hslash, if_neg hne]

/-- Witness for the amended C4 theorem at the concrete input `"kæt"`. -/
theorem clean_ipa_idempotent_witness :
    clean_ipa "kæt" = Except.ok "kæt" :=
  (clean_ipa_idempotent "kæt" (by decide)
    (fun c hc => by
      have h2 : some 'k' = some c := hc
      cases h2
      exact ⟨by decide, by decide⟩)
    (fun c hc => by
      have h2 : some 't' = some c := hc
      cases h2
      exact ⟨by decide, by decide⟩)).1

/-- C2: a `/phonemize` request whose language is not in the Language
Registry is rejected as a validation failure (HTTP 422) carrying a
`language` error whose message enumerates all supported codes, and the
external phonemization engine is never invoked. -/
theorem phonemize_unsupported_language_rejected
    (engine : String → String → Except String (List (List String)))
    (text language : String) (h : isSupported language = false) :
    (phonemize_text engine text language).2 = [] ∧
    phonemizeStatus (phonemize_text engine text language).1 = 422 ∧
    (∃ es, (phonemize_text engine text language).1 =
        PhonemizeOutcome.validationError es ∧
      ValidationError.mk "language" (languageErrorMsg language) ∈ es) ∧
    languageErrorMsg language =
      "Language \"" ++ language ++ "\" not supported. Available languages: " ++
        "ar, cs, cs-cz, de, de-de, en, en-us, es, es-es, fa, fr, fr-fr, it, it-it, lb, nl, ru, ru-ru, sv, sv-se, sw" := by
  have hl : language_must_be_supported language =
      Except.error (languageErrorMsg language) := by
    unfold language_must_be_supported
    rw [if_neg (by simp [h])]
  have henum : String.intercalate ", " supportedCodes =
      "ar, cs, cs-cz, de, de-de, en, en-us, es, es-es, fa, fr, fr-fr, it, it-it, lb, nl, ru, ru-ru, sv, sv-se, sw" := rfl
  cases ht : text_not_empty text with
  | error m =>
    refine ⟨?_, ?_, ⟨[ValidationError.mk "text" m,
      ValidationError.mk "language" (languageErrorMsg language)], ?_, ?_⟩, ?_⟩
    · simp [phonemize_text, validatePhonemeRequest, ht, hl]
    · simp [phonemize_text, validatePhonemeRequest, ht, hl, phonemizeStatus]
    · simp [phonemize_text, validatePhonemeRequest, ht, hl]
    · simp
    · unfold languageErrorMsg
      rw [henum]
  | ok t =>
    refine ⟨?_, ?_, ⟨[ValidationError.mk "language" (languageErrorMsg language)],
      ?_, ?_⟩, ?_⟩
    · simp [phonemize_text, validatePhonemeRequest, ht, hl]
    · simp [phonemize_text, validatePhonemeRequest, ht, hl, phonemizeStatus]
    · simp [phonemize_text, validatePhonemeRequest, ht, hl]
    · simp
    · unfold languageErrorMsg
      rw [henum]

/-- Witness for C2 at the concrete request
`{text: "hello", language: "invalid-lang"}`. -/
theorem phonemize_unsupported_language_rejected_witness :
    (phonemize_text (fun _ _ => Except.ok []) "hello" "invalid-lang").2 = [] ∧
    phonemizeStatus
      (phonemize_text (fun _ _ => Except.ok []) "hello" "invalid-lang").1 = 422 ∧
    (∃ es, (phonemize_text (fun _ _ => Except.ok []) "hello" "invalid-lang").1 =
        PhonemizeOutcome.validationError es ∧
      ValidationError.mk "language" (languageErrorMsg "invalid-lang") ∈ es) ∧
    languageErrorMsg "invalid-lang" =
      "Language \"" ++ "invalid-lang" ++ "\" not supported. Available languages: " ++
        "ar, cs, cs-cz, de, de-de, en, en-us, es, es-es, fa, fr, fr-fr, it, it-it, lb, nl, ru, ru-ru, sv, sv-se, sw" :=
  phonemize_unsupported_language_rejected (fun _ _ => Except.ok [])
    "hello" "invalid-lang" (by decide)

theorem validate_ok_text (text language : String) (req : PhonemeRequest)
    (h : validatePhonemeRequest text language = Except.ok req) :
    req.text = pyStrip text := by
  unfold validatePhonemeRequest at h
  cases ht : text_not_empty text with
  | error m => rw [ht] at h; exact Except.noConfusion h
  | ok t =>
    cases hlang : language_must_be_supported language with
    | error m => rw [ht, hlang] at h; exact Except.noConfusion h
    | ok l =>
      rw [ht, hlang] at h
      injection h with h2
      rw [← h2]
      exact text_not_empty_ok text t ht

/-- C7: a `text` that is empty or all-whitespace is rejected with an error
naming the `text` field, whatever the language; an accepted request stores
the whitespace-trimmed text, and that trimmed text is exactly what is
passed to the phonemization engine. -/
theorem text_validation (text language : String) :
    (pyStrip text = "" →
      ∃ es, validatePhonemeRequest text language = Except.error es ∧
        ValidationError.mk "text" "Text cannot be empty" ∈ es) ∧
    (∀ req, validatePhonemeRequest text language = Except.ok req →
      req.text = pyStrip text) ∧
    (∀ engine p, p ∈ (phonemize_text engine text language).2 →
      p.1 = pyStrip text) := by
  refine ⟨fun h => ?_, fun req hreq => ?_, fun engine p hp => ?_⟩
  · have ht : text_not_empty text = Except.error "Text cannot be empty" := by
      unfold text_not_empty
      rw [if_pos h]
    cases hlang : language_must_be_supported language with
    | error m =>
      exact ⟨[ValidationError.mk "text" "Text cannot be empty",
              ValidationError.mk "language" m],
        by simp [validatePhonemeRequest, ht, hlang], by simp⟩
    | ok l =>
      exact ⟨[ValidationError.mk "text" "Text cannot be empty"],
        by simp [validatePhonemeRequest, ht, hlang], by simp⟩
  · exact validate_ok_text text language req hreq
  · unfold phonemize_text at hp
    cases hv : validatePhonemeRequest text language with
    | error es => rw [hv] at hp; simp at hp
    | ok req =>
      rw [hv] at hp
      have hreqtext : req.text = pyStrip text :=
        validate_ok_text text language req hv
      cases he : engine req.text req.language with
      | error m =>
        simp [he] at hp
        rw [hp]
        exact hreqtext
      | ok phonemes =>
        simp [he] at hp
        rw [hp]
        exact hreqtext

/-- Witness for C7: the all-whitespace text `"  "` is rejected with a
`text` error, and the accepted text `" hi "` is stored and passed to the
engine trimmed. -/
theorem text_validation_witness :
    (∃ es, validatePhonemeRequest "  " "en-us" = Except.error es ∧
      ValidationError.mk "text" "Text cannot be empty" ∈ es) ∧
    (PhonemeRequest.mk "hi" "en-us").text = pyStrip " hi " ∧
    ∀ p ∈ (phonemize_text (fun _ _ => Except.ok []) " hi " "en-us").2,
      p.1 = pyStrip " hi " :=
  ⟨(text_validation "  " "en-us").1 rfl,
   (text_validation " hi " "en-us").2.1 (PhonemeRequest.mk "hi" "en-us") rfl,
   fun p hp =>
     (text_validation " hi " "en-us").2.2 (fun _ _ => Except.ok []) p hp⟩

/-- C5: when validation passes and the engine returns a sequence of phoneme
groups, the response's `espeak_ascii` (and, degenerately, `ipa` and
`sampa`) is the groups each concatenated with no separator and then joined
with a single space. -/
theorem phonemize_success_espeak
    (engine : String → String → Except String (List (List String)))
    (text language : String) (req : PhonemeRequest)
    (phonemes : List (List String))
    (hv : validatePhonemeRequest text language = Except.ok req)
    (he : engine req.text req.language = Except.ok phonemes) :
    (phonemize_text engine text language).1 =
      PhonemizeOutcome.success
        { ipa := String.intercalate " " (phonemes.map String.join)
        , sampa := String.intercalate " " (phonemes.map String.join)
        , espeak_ascii := String.intercalate " " (phonemes.map String.join)
        , note := defaultNote } := by
  simp [phonemize_text, hv, he]

/-- Witness for C5 at a concrete engine output of two phoneme groups. -/
theorem phonemize_success_espeak_witness :
    (phonemize_text (fun _ _ => Except.ok [["h", "@"], ["l", "oU"]])
        "hello" "en-us").1 =
      PhonemizeOutcome.success
        { ipa := String.intercalate " "
            ([["h", "@"], ["l", "oU"]].map String.join)
        , sampa := String.intercalate " "
            ([["h", "@"], ["l", "oU"]].map String.join)
        , espeak_ascii := String.intercalate " "
            ([["h", "@"], ["l", "oU"]].map String.join)
        , note := defaultNote } :=
  phonemize_success_espeak (fun _ _ => Except.ok [["h", "@"], ["l", "oU"]])
    "hello" "en-us" (PhonemeRequest.mk "hello" "en-us")
    [["h", "@"], ["l", "oU"]] rfl rfl

/-- C6: every successful `/phonemize` response has `ipa`, `sampa` and
`espeak_ascii` all equal — no IPA or SAMPA conversion is performed. -/
theorem phonemize_degenerate_equal
    (engine : String → String → Except String (List (List String)))
    (text language : String) (r : PhonemeResponse)
    (h : (phonemize_text engine text language).1 =
      PhonemizeOutcome.success r) :
    r.ipa = r.sampa ∧ r.sampa = r.espeak_ascii := by
  unfold phonemize_text at h
  cases hv : validatePhonemeRequest text language with
  | error es => rw [hv] at h; simp at h
  | ok req =>
    rw [hv] at h
    cases he : engine req.text req.language with
    | error m => simp [he] at h
    | ok phonemes =>
      simp [he] at h
      rw [← h]
      exact ⟨rfl, rfl⟩

/-- Witness for C6 at a concrete engine output. -/
theorem phonemize_degenerate_equal_witness :
    (PhonemeResponse.mk "a" "a" "a" defaultNote).ipa =
      (PhonemeResponse.mk "a" "a" "a" defaultNote).sampa ∧
    (PhonemeResponse.mk "a" "a" "a" defaultNote).sampa =
      (PhonemeResponse.mk "a" "a" "a" defaultNote).espeak_ascii :=
  phonemize_degenerate_equal (fun _ _ => Except.ok [["a"]]) "hello" "en-us"
    (PhonemeResponse.mk "a" "a" "a" defaultNote) rfl

/-- C1: with the upstream unconfigured, `ipa_to_text` makes no outbound
call and its message names the missing variables, but its status is 500,
not 503 — the handler's broad `except Exception` catches its own
`HTTPException(503)` and re-raises it as a 500, so the configuration
failure is not distinguishable by status from an upstream call failure,
which is also a 500. -/
theorem ipa_to_text_unconfigured_is_500 :
    ipa_to_text (Config.mk "" "" "") "kæt"
        (fun _ => CallOutcome.success (Choice.mk "cat" "stop")) =
      (IpaResult.httpError 500
        ("Error converting IPA to text: " ++
          httpExceptionStr 503 configMissingDetail), []) ∧
    (ipa_to_text (Config.mk "https://e" "k" "g") "kæt"
        (fun _ => CallOutcome.apiError "boom")).1 =
      IpaResult.httpError 500
        ("Error converting IPA to text: " ++
          httpExceptionStr 500 ("Azure OpenAI API error: " ++ "boom")) :=
  ⟨rfl, rfl⟩

/-- C8: when the three configuration values are set and the upstream call
succeeds, the request that was sent uses temperature 0, a 50-token cap and
the two-message prompt whose user message is `"IPA: <ipa>"`, the response
text is the first choice's content with surrounding whitespace trimmed, and
`confidence` is the boolean that is true exactly when the finish reason is
`"stop"`. -/
theorem ipa_to_text_success (cfg : Config) (ipa : String) (choice : Choice)
    (call : ChatRequest → CallOutcome)
    (he : cfg.endpoint ≠ "") (hk : cfg.apiKey ≠ "") (hg : cfg.engine ≠ "")
    (hc : call (buildChatRequest cfg.engine ipa) =
      CallOutcome.success choice) :
    ipa_to_text cfg ipa call =
      (IpaResult.response (pyStrip choice.content)
        (choice.finish_reason == "stop"),
       [buildChatRequest cfg.engine ipa]) ∧
    (buildChatRequest cfg.engine ipa).temperature = 0 ∧
    (buildChatRequest cfg.engine ipa).max_tokens = 50 ∧
    (buildChatRequest cfg.engine ipa).messages =
      [ChatMessage.mk "system" systemPrompt,
       ChatMessage.mk "user" ("IPA: " ++ ipa)] ∧
    ((choice.finish_reason == "stop") = true ↔
      choice.finish_reason = "stop") := by
  refine ⟨?_, rfl, rfl, rfl, beq_iff_eq ..⟩
  unfold ipa_to_text
  rw [if_neg (by simp [he, hk, hg])]
  simp only [hc]

/-- Witness for C8 at a concrete configuration, input and first choice. -/
theorem ipa_to_text_success_witness :
    ipa_to_text (Config.mk "https://e" "k" "gpt") "kæt"
        (fun _ => CallOutcome.success (Choice.mk " cat " "stop")) =
      (IpaResult.response (pyStrip " cat ") (("stop" : String) == "stop"),
       [buildChatRequest "gpt" "kæt"]) ∧
    (buildChatRequest "gpt" "kæt").temperature = 0 ∧
    (buildChatRequest "gpt" "kæt").max_tokens = 50 ∧
    (buildChatRequest "gpt" "kæt").messages =
      [ChatMessage.mk "system" systemPrompt,
       ChatMessage.mk "user" ("IPA: " ++ "kæt")] ∧
    ((("stop" : String) == "stop") = true ↔ ("stop" : String) = "stop") :=
  ipa_to_text_success (Config.mk "https://e" "k" "gpt") "kæt"
    (Choice.mk " cat " "stop")
    (fun _ => CallOutcome.success (Choice.mk " cat " "stop"))
    (by decide) (by decide) (by decide) rfl

/-- C10: the `endpoint` field of `/debug/config` is the configured endpoint
with every occurrence of the API key replaced by `"REDACTED"`; when the API
key is unset or empty, Python's `str.replace` with an empty pattern inserts
`"REDACTED"` between every character of the endpoint and at both ends
instead of leaving the endpoint unchanged. -/
theorem debug_config_endpoint_redaction (cfg : Config) :
    (debug_config cfg).endpoint = pyReplace cfg.endpoint cfg.apiKey "REDACTED" ∧
    (cfg.apiKey = "" →
      (debug_config cfg).endpoint = redactedInterleave cfg.endpoint) := by
  refine ⟨rfl, fun hk => ?_⟩
  show pyReplace cfg.endpoint cfg.apiKey "REDACTED" = _
  rw [hk]
  unfold pyReplace redactedInterleave
  rw [show ("" : String).toList = [] from rfl, pyReplaceList_nil_old]

/-- Witness for C10 at the endpoint `"ab"` with an empty API key. -/
theorem debug_config_endpoint_redaction_witness :
    (debug_config (Config.mk "ab" "" "g")).endpoint = redactedInterleave "ab" ∧
    redactedInterleave "ab" = "REDACTEDaREDACTEDbREDACTED" :=
  ⟨(debug_config_endpoint_redaction (Config.mk "ab" "" "g")).2 rfl, rfl⟩

end PiperPhonemizeAPI
